import Mathlib

/-!
Verification of the brain-radio constraint-composition and track-verification
pipeline. The definitions below are a shallow embedding of
`src/brain_radio/models.py`, `src/brain_radio/agents/neuro_composer.py`,
`src/brain_radio/agents/researcher.py` and `src/brain_radio/agents/supervisor.py`.
Python floats are modelled as rationals, `None`-able fields as `Option`, the
injected search capability as a function `String → Except Unit String` whose
`Except.error` outcome stands for a raised exception, and the in-place track
mutation of `verify_track` as the `track` field of the returned result.
-/

namespace BrainRadio

/-- `Mode` enumeration from models.py. -/
inductive Mode where
  | FOCUS
  | RELAX
  | SLEEP
  | MEDITATION
deriving DecidableEq, Repr

/-- `ProtocolConstraints` pydantic model from models.py. -/
structure ProtocolConstraints where
  mode : Mode
  tempo_min : Option ℚ
  tempo_max : Option ℚ
  energy_min : Option ℚ
  energy_max : Option ℚ
  no_vocals : Bool
  avoid_live : Bool
  avoid_remaster : Bool
  avoid_feat : Bool
  genres : List String
  key_preference : Option String
deriving DecidableEq, Repr

/-- `TrackMetadata` pydantic model from models.py. -/
structure TrackMetadata where
  spotify_id : String
  spotify_uri : String
  name : String
  artist : String
  album : Option String
  duration_ms : Option Int
  bpm : Option ℚ
  key : Option String
  is_instrumental : Option Bool
  energy : Option ℚ
  speechiness : Option ℚ
  instrumentalness : Option ℚ
  explicit : Bool
  is_live : Bool
  is_remaster : Bool
  has_feat : Bool
  source : String
deriving DecidableEq, Repr

/-- `VerificationResult` pydantic model from models.py. -/
structure VerificationResult where
  track : TrackMetadata
  approved : Bool
  confidence : ℚ
  reasons : List String
  distraction_score : Option ℚ
deriving DecidableEq, Repr

/-- `PlaylistRequest` pydantic model from models.py. -/
structure PlaylistRequest where
  mode : Mode
  genre : Option String
  duration_minutes : Option Int
deriving DecidableEq, Repr

/-- `PlaylistResult` pydantic model from models.py; the
`verification_summary` dict is modelled as an association list. -/
structure PlaylistResult where
  mode : Mode
  tracks : List TrackMetadata
  total_duration_ms : Int
  verification_summary : List (String × Int)
deriving DecidableEq, Repr

/-- Modelled from the spec: the module `brain_radio.agents.constants` is not
among the repository files, so the BPM sanity bound `MIN_VALID_BPM` takes the
value the spec gives in section 4.2 ("roughly 40-220 BPM"). -/
def MIN_VALID_BPM : ℚ := 40

/-- Modelled from the spec: the module `brain_radio.agents.constants` is not
among the repository files, so the BPM sanity bound `MAX_VALID_BPM` takes the
value the spec gives in section 4.2 ("roughly 40-220 BPM"). -/
def MAX_VALID_BPM : ℚ := 220

/-- Modelled from the spec: the module `brain_radio.agents.constants` is not
among the repository files and the spec only calls the researcher thresholds
and distraction weights "fixed" without giving numbers, so they are kept as
parameters of the verifier; every theorem below holds for all values. -/
structure ResearcherParams where
  INSTRUMENTALNESS_THRESHOLD : ℚ
  SPEECHINESS_THRESHOLD : ℚ
  DISTRACTION_SCORE_SPEECHINESS_WEIGHT : ℚ
  DISTRACTION_SCORE_INSTRUMENTALNESS_WEIGHT : ℚ
  DISTRACTION_SCORE_ENERGY_WEIGHT : ℚ
  DISTRACTION_SCORE_EXPLICIT_PENALTY : ℚ
  DISTRACTION_SCORE_REJECTION_THRESHOLD : ℚ
deriving DecidableEq, Repr

/-! ## Text BPM extraction (researcher.py `_extract_bpm_from_text`)

The four regular expressions of `_extract_bpm_from_text` are embedded as
character-level scanners over `List Char`. Each scanner returns the captured
number of the leftmost match of its pattern, exactly as `re.findall(...)[0]`
does, with Python's leftmost-then-greedy backtracking semantics spelled out
for the specific pattern shapes involved. -/

/-- Python `\d` on the ASCII inputs at hand. -/
def isDigitChar (c : Char) : Bool := 48 ≤ c.toNat && c.toNat ≤ 57

/-- Python `\s`: space, tab, newline, carriage return, vertical tab, form feed. -/
def isSpaceChar (c : Char) : Bool := c.toNat = 32 || (9 ≤ c.toNat && c.toNat ≤ 13)

/-- Python `\w` (ASCII): letters, digits, underscore. -/
def isWordChar (c : Char) : Bool :=
  (48 ≤ c.toNat && c.toNat ≤ 57) || (65 ≤ c.toNat && c.toNat ≤ 90) ||
  (97 ≤ c.toNat && c.toNat ≤ 122) || c.toNat = 95

/-- Case-insensitive match of input char `c` against lowercase pattern char `p`
(re.IGNORECASE on the literal parts of the patterns). -/
def charMatchesICase (p c : Char) : Bool :=
  c.toNat = p.toNat || (65 ≤ c.toNat && c.toNat ≤ 90 && c.toNat + 32 = p.toNat)

/-- Numeric value of an ASCII digit. -/
def digitVal (c : Char) : Nat := c.toNat - 48

/-- Greedy `\s*`. -/
def skipSpaces (l : List Char) : List Char := l.dropWhile isSpaceChar

/-- Match a lowercase literal case-insensitively, returning the rest of the
input on success. -/
def matchLitICase : List Char → List Char → Option (List Char)
  | [], l => some l
  | _ :: _, [] => none
  | p :: ps, c :: cs => if charMatchesICase p c then matchLitICase ps cs else none

/-- The character class `[:\s]` of patterns 2 and 3. -/
def isColonSpace (c : Char) : Bool := c = ':' || isSpaceChar c

/-- Tail of pattern 1 after the captured digits: `\s*BPM\b` (ignorecase). -/
def p1Tail (rest : List Char) : Bool :=
  match matchLitICase ['b', 'p', 'm'] (skipSpaces rest) with
  | none => false
  | some [] => true
  | some (c :: _) => !(isWordChar c)

/-- Attempt of pattern 1, `\b(\d{2,3})\s*BPM\b`, at one input position.
`prevW` says whether the previous character is a word character (for `\b`);
the greedy `\d{2,3}` tries three digits first, then two. -/
def matchP1At (prevW : Bool) (l : List Char) : Option Nat :=
  if prevW then none
  else
    match l with
    | c1 :: c2 :: rest2 =>
      if isDigitChar c1 && isDigitChar c2 then
        match rest2 with
        | c3 :: rest3 =>
          if isDigitChar c3 && p1Tail rest3 then
            some (100 * digitVal c1 + 10 * digitVal c2 + digitVal c3)
          else if p1Tail rest2 then
            some (10 * digitVal c1 + digitVal c2)
          else none
        | [] => if p1Tail [] then some (10 * digitVal c1 + digitVal c2) else none
      else none
    | _ => none

/-- Leftmost match of pattern 1, scanning positions left to right while
tracking whether the previous character is a word character. -/
def scanP1 : Bool → List Char → Option Nat
  | _, [] => none
  | prevW, c :: rest =>
    match matchP1At prevW (c :: rest) with
    | some n => some n
    | none => scanP1 (isWordChar c) rest

/-- Greedy capture `(\d{2,3})` with no trailing constraint: at least two
digits, a third taken when present. -/
def digitsCapture : List Char → Option Nat
  | c1 :: c2 :: rest =>
    if isDigitChar c1 && isDigitChar c2 then
      match rest with
      | c3 :: _ =>
        if isDigitChar c3 then
          some (100 * digitVal c1 + 10 * digitVal c2 + digitVal c3)
        else some (10 * digitVal c1 + digitVal c2)
      | [] => some (10 * digitVal c1 + digitVal c2)
    else none
  | _ => none

/-- Attempt of pattern `KEY[:\s]+(\d{2,3})` (patterns 2 and 3, ignorecase) at
one input position: the literal key, one or more `[:\s]` characters consumed
greedily, then the captured digits. -/
def matchKeyValAt (key : List Char) (l : List Char) : Option Nat :=
  match matchLitICase key l with
  | none => none
  | some [] => none
  | some (c :: rest) =>
    if isColonSpace c then digitsCapture (rest.dropWhile isColonSpace)
    else none

/-- Leftmost match of `KEY[:\s]+(\d{2,3})`. -/
def scanKeyVal (key : List Char) : List Char → Option Nat
  | [] => none
  | c :: rest =>
    match matchKeyValAt key (c :: rest) with
    | some n => some n
    | none => scanKeyVal key rest

/-- Tail of pattern 4 after the captured digits: `\s*bpm` (ignorecase), with
no word-boundary requirement. -/
def p4Tail (rest : List Char) : Bool :=
  (matchLitICase ['b', 'p', 'm'] (skipSpaces rest)).isSome

/-- Attempt of pattern 4, `(\d{2,3})\s*bpm`, at one input position. -/
def matchP4At (l : List Char) : Option Nat :=
  match l with
  | c1 :: c2 :: rest2 =>
    if isDigitChar c1 && isDigitChar c2 then
      match rest2 with
      | c3 :: rest3 =>
        if isDigitChar c3 && p4Tail rest3 then
          some (100 * digitVal c1 + 10 * digitVal c2 + digitVal c3)
        else if p4Tail rest2 then
          some (10 * digitVal c1 + digitVal c2)
        else none
      | [] => if p4Tail [] then some (10 * digitVal c1 + digitVal c2) else none
    else none
  | _ => none

/-- Leftmost match of pattern 4. -/
def scanP4 : List Char → Option Nat
  | [] => none
  | c :: rest =>
    match matchP4At (c :: rest) with
    | some n => some n
    | none => scanP4 rest

/-- One iteration of the pattern loop of `_extract_bpm_from_text`: a match is
returned when it lies within the sanity range, otherwise the next pattern is
tried (the `float` conversion of an all-digit capture cannot fail, so the
`ValueError` branch of the source is unreachable). -/
def firstValidBpm : List (Option Nat) → Option ℚ
  | [] => none
  | m :: ms =>
    match m with
    | some n =>
      if MIN_VALID_BPM ≤ (n : ℚ) ∧ (n : ℚ) ≤ MAX_VALID_BPM then some (n : ℚ)
      else firstValidBpm ms
    | none => firstValidBpm ms

/-- `_extract_bpm_from_text` (researcher.py lines 204-225): the four patterns
in priority order, each contributing the capture of its leftmost match. -/
def extractBpmFromText (text : String) : Option ℚ :=
  firstValidBpm
    [scanP1 false text.data,
     scanKeyVal ['b', 'p', 'm'] text.data,
     scanKeyVal ['t', 'e', 'm', 'p', 'o'] text.data,
     scanP4 text.data]

/-! ## The researcher agent (researcher.py) -/

/-- `_research_bpm` (researcher.py lines 180-202): the search capability is
queried with track name, artist and "BPM tempo"; a raised exception
(`Except.error`) is caught and yields `none`, otherwise the result text is
mined with `_extract_bpm_from_text`. -/
def researchBpm (search : String → Except Unit String) (track : TrackMetadata) :
    Option ℚ :=
  match search (track.name ++ " " ++ track.artist ++ " BPM tempo") with
  | Except.error _ => none
  | Except.ok result => extractBpmFromText result

/-- `_is_instrumental` (researcher.py lines 164-178). -/
def isInstrumental (P : ResearcherParams) (track : TrackMetadata) : Bool :=
  match track.is_instrumental with
  | some b => b
  | none =>
    match track.instrumentalness with
    | some i => decide (i > P.INSTRUMENTALNESS_THRESHOLD)
    | none =>
      match track.speechiness with
      | some s => decide (s < P.SPEECHINESS_THRESHOLD)
      | none => false

/-- `_calculate_distraction_score` (researcher.py lines 227-255). -/
def calculateDistractionScore (P : ResearcherParams) (track : TrackMetadata) : ℚ :=
  let score : ℚ := 0
  let score := score +
    (match track.speechiness with
     | some s => s * P.DISTRACTION_SCORE_SPEECHINESS_WEIGHT
     | none => 0)
  let score := score +
    (match track.instrumentalness with
     | some i => (1 - i) * P.DISTRACTION_SCORE_INSTRUMENTALNESS_WEIGHT
     | none => 0)
  let score := score +
    (match track.energy with
     | some e => e * P.DISTRACTION_SCORE_ENERGY_WEIGHT
     | none => 0)
  let score := score + (if track.explicit then P.DISTRACTION_SCORE_EXPLICIT_PENALTY else 0)
  min score 1

/-- The rejection reason of the vocal check (researcher.py line 59). -/
def vocalMsg : String := "Contains vocals - violates protocol constraint"

/-- The rejection reason of the live check (researcher.py line 68). -/
def liveMsg : String := "Live version - violates protocol constraint"

/-- The rejection reason of the remaster check (researcher.py line 77). -/
def remasterMsg : String := "Remastered version - violates protocol constraint"

/-- The rejection reason of the featured-artist check (researcher.py line 86). -/
def featMsg : String := "Featured artists - violates protocol constraint"

/-- The rejection reason of a failed BPM research (researcher.py line 101). -/
def insufficientBpmMsg : String := "Could not determine BPM - insufficient confidence"

/-- The rejection reason of the minimum-tempo check (researcher.py line 112). -/
def bpmBelowMsg (bpm m : ℚ) : String :=
  "BPM " ++ toString bpm ++ " below minimum " ++ toString m

/-- The rejection reason of the maximum-tempo check (researcher.py line 120). -/
def bpmAboveMsg (bpm M : ℚ) : String :=
  "BPM " ++ toString bpm ++ " above maximum " ++ toString M

/-- The note appended after a passed tempo check (researcher.py line 123). -/
def bpmWithinMsg (bpm : ℚ) : String := "BPM " ++ toString bpm ++ " within range"

/-- The rejection reason of the minimum-energy check (researcher.py line 132). -/
def energyBelowMsg (e emin : ℚ) : String :=
  "Energy " ++ toString e ++ " below minimum " ++ toString emin

/-- The rejection reason of the maximum-energy check (researcher.py line 141). -/
def energyAboveMsg (e emax : ℚ) : String :=
  "Energy " ++ toString e ++ " above maximum " ++ toString emax

/-- The rejection reason of the distraction-score check (researcher.py
line 151; the Python `:.2f` rendering of the score is abstracted to the
rational's own rendering, which no claim depends on). -/
def distractionMsg (d : ℚ) : String := "Distraction score " ++ toString d ++ " too high"

/-- The acceptance reason (researcher.py line 155). -/
def successMsg : String := "All protocol constraints satisfied"

/-- The distraction-score gate of `verify_track` (researcher.py lines
144-162): reject when the focus-mode score exceeds the threshold, otherwise
accept with the accumulated reasons and the success message. -/
def distractionStage (P : ResearcherParams) (track : TrackMetadata)
    (constraints : ProtocolConstraints) (reasons : List String)
    (distraction_score : Option ℚ) : VerificationResult :=
  match constraints.mode, distraction_score with
  | Mode.FOCUS, some d =>
    if d > P.DISTRACTION_SCORE_REJECTION_THRESHOLD then
      { track := track, approved := false, confidence := 9 / 10,
        reasons := [distractionMsg d], distraction_score := some d }
    else
      { track := track, approved := true, confidence := 1,
        reasons := reasons ++ [successMsg], distraction_score := distraction_score }
  | _, _ =>
    { track := track, approved := true, confidence := 1,
      reasons := reasons ++ [successMsg], distraction_score := distraction_score }

/-- The maximum-energy check of `verify_track` (researcher.py lines 135-142). -/
def energyMaxStage (P : ResearcherParams) (track : TrackMetadata)
    (constraints : ProtocolConstraints) (reasons : List String)
    (distraction_score : Option ℚ) : VerificationResult :=
  match constraints.energy_max, track.energy with
  | some emax, some e =>
    if e > emax then
      { track := track, approved := false, confidence := 1,
        reasons := [energyAboveMsg e emax], distraction_score := none }
    else distractionStage P track constraints reasons distraction_score
  | _, _ => distractionStage P track constraints reasons distraction_score

/-- The minimum-energy check of `verify_track` (researcher.py lines 126-133). -/
def energyMinStage (P : ResearcherParams) (track : TrackMetadata)
    (constraints : ProtocolConstraints) (reasons : List String)
    (distraction_score : Option ℚ) : VerificationResult :=
  match constraints.energy_min, track.energy with
  | some emin, some e =>
    if e < emin then
      { track := track, approved := false, confidence := 1,
        reasons := [energyBelowMsg e emin], distraction_score := none }
    else energyMaxStage P track constraints reasons distraction_score
  | _, _ => energyMaxStage P track constraints reasons distraction_score

/-- The maximum-tempo comparison of `verify_track` (researcher.py lines
115-123), followed by the "within range" note. -/
def tempoMaxStage (P : ResearcherParams) (track : TrackMetadata)
    (constraints : ProtocolConstraints) (bpm : ℚ) (reasons : List String)
    (distraction_score : Option ℚ) : VerificationResult :=
  match constraints.tempo_max with
  | some M =>
    if bpm > M then
      { track := track, approved := false, confidence := 1,
        reasons := [bpmAboveMsg bpm M], distraction_score := none }
    else energyMinStage P track constraints (reasons ++ [bpmWithinMsg bpm]) distraction_score
  | none => energyMinStage P track constraints (reasons ++ [bpmWithinMsg bpm]) distraction_score

/-- The minimum-tempo comparison of `verify_track` (researcher.py lines
107-113). -/
def tempoRangeStage (P : ResearcherParams) (track : TrackMetadata)
    (constraints : ProtocolConstraints) (bpm : ℚ) (reasons : List String)
    (distraction_score : Option ℚ) : VerificationResult :=
  match constraints.tempo_min with
  | some m =>
    if bpm < m then
      { track := track, approved := false, confidence := 1,
        reasons := [bpmBelowMsg bpm m], distraction_score := none }
    else tempoMaxStage P track constraints bpm reasons distraction_score
  | none => tempoMaxStage P track constraints bpm reasons distraction_score

/-- `verify_track` (researcher.py lines 37-162). The distraction score is
computed first for focus mode; then the hard bans run in order, then the
tempo section with its fallback research, then the energy and distraction
checks, then acceptance. Where the source omits the `distraction_score`
keyword, the pydantic default `None` is written out explicitly. -/
def verifyTrack (P : ResearcherParams) (search : String → Except Unit String)
    (track : TrackMetadata) (constraints : ProtocolConstraints) : VerificationResult :=
  let distraction_score : Option ℚ :=
    if constraints.mode = Mode.FOCUS then some (calculateDistractionScore P track)
    else none
  if constraints.no_vocals && !(isInstrumental P track) then
    { track := track, approved := false, confidence := 1,
      reasons := [vocalMsg], distraction_score := distraction_score }
  else if constraints.avoid_live && track.is_live then
    { track := track, approved := false, confidence := 1,
      reasons := [liveMsg], distraction_score := distraction_score }
  else if constraints.avoid_remaster && track.is_remaster then
    { track := track, approved := false, confidence := 1,
      reasons := [remasterMsg], distraction_score := distraction_score }
  else if constraints.avoid_feat && track.has_feat then
    { track := track, approved := false, confidence := 1,
      reasons := [featMsg], distraction_score := distraction_score }
  else if constraints.tempo_min.isSome || constraints.tempo_max.isSome then
    match track.bpm with
    | some bpm => tempoRangeStage P track constraints bpm [] distraction_score
    | none =>
      match researchBpm search track with
      | none =>
        { track := track, approved := false, confidence := 0,
          reasons := [insufficientBpmMsg], distraction_score := none }
      | some bpm =>
        tempoRangeStage P
          { track with bpm := some bpm, source := "external_fallback" }
          constraints bpm [] distraction_score
  else energyMinStage P track constraints [] distraction_score

/-! ## The neuro-composer agent (neuro_composer.py)

The per-mode numeric values come from the spec's section 4.1 table; they
match the assertions of tests/test_neuro_composer.py. The
`brain_radio.agents.constants` module that names them is not among the
repository files. -/

/-- `compose_constraints` (neuro_composer.py lines 25-97); the final
`ValueError` branch is unreachable because `Mode` is a closed enumeration. -/
def compose_constraints (mode : Mode) (genre : Option String) : ProtocolConstraints :=
  match mode with
  | Mode.FOCUS =>
    { mode := Mode.FOCUS, tempo_min := some 120, tempo_max := some 140,
      energy_min := none, energy_max := some (7 / 10),
      no_vocals := true, avoid_live := true, avoid_remaster := true,
      avoid_feat := true,
      genres := match genre with
        | none => ["Techno", "Baroque", "Post-Rock"]
        | some g => [g],
      key_preference := none }
  | Mode.RELAX =>
    { mode := Mode.RELAX, tempo_min := some 60, tempo_max := some 90,
      energy_min := none, energy_max := some (6 / 10),
      no_vocals := false, avoid_live := false, avoid_remaster := false,
      avoid_feat := false,
      genres := match genre with
        | none => ["Acoustic", "Ambient", "Jazz"]
        | some g => [g],
      key_preference := some "Major" }
  | Mode.SLEEP =>
    { mode := Mode.SLEEP, tempo_min := none, tempo_max := some 60,
      energy_min := none, energy_max := some (3 / 10),
      no_vocals := false, avoid_live := true, avoid_remaster := false,
      avoid_feat := false,
      genres := match genre with
        | none => ["Ambient", "Drone", "Nature Sounds"]
        | some g => [g],
      key_preference := none }
  | Mode.MEDITATION =>
    { mode := Mode.MEDITATION, tempo_min := none, tempo_max := some 70,
      energy_min := none, energy_max := some (4 / 10),
      no_vocals := true, avoid_live := true, avoid_remaster := false,
      avoid_feat := false,
      genres := match genre with
        | none => ["Ambient", "Drone", "Nature Sounds"]
        | some g => [g],
      key_preference := none }

/-! ## The supervisor agent (supervisor.py)

The LangGraph workflow has the linear edges compose_constraints →
generate_candidates → verify_tracks → filter_approved → build_result → END
with no conditional edge, so invoking the graph is the sequential composition
of the five node functions on the shared state record. -/

/-- `SupervisorState` (supervisor.py lines 19-28). -/
structure SupervisorState where
  request : PlaylistRequest
  constraints : Option ProtocolConstraints
  candidate_tracks : List TrackMetadata
  verified_tracks : List VerificationResult
  approved_tracks : List TrackMetadata
  result : Option PlaylistResult
  error : Option String
deriving DecidableEq, Repr

/-- `_compose_constraints` node (supervisor.py lines 97-104). -/
def composeConstraintsNode (s : SupervisorState) : SupervisorState :=
  { s with constraints := some (compose_constraints s.request.mode s.request.genre) }

/-- `_generate_candidates` node (supervisor.py lines 106-121): the candidate
list is the mock empty list; a missing constraints record sets the error
slot. A pydantic constraints object is always truthy, so Python's
`if not constraints` is exactly the `none` test. -/
def generateCandidatesNode (s : SupervisorState) : SupervisorState :=
  match s.constraints with
  | none => { s with error := some "Constraints not composed" }
  | some _ => { s with candidate_tracks := [] }

/-- `_verify_tracks` node (supervisor.py lines 123-136). -/
def verifyTracksNode (P : ResearcherParams) (search : String → Except Unit String)
    (s : SupervisorState) : SupervisorState :=
  match s.constraints with
  | none => { s with error := some "Constraints not composed" }
  | some c =>
    { s with verified_tracks := s.candidate_tracks.map (fun t => verifyTrack P search t c) }

/-- `_filter_approved` node (supervisor.py lines 138-142). -/
def filterApprovedNode (s : SupervisorState) : SupervisorState :=
  { s with approved_tracks :=
      ((s.verified_tracks.filter (fun vr => vr.approved)).map (fun vr => vr.track)) }

/-- `_build_result` node (supervisor.py lines 144-165). -/
def buildResultNode (s : SupervisorState) : SupervisorState :=
  { s with result := some (
      { mode := s.request.mode,
        tracks := s.approved_tracks,
        total_duration_ms := (s.approved_tracks.map
          (fun t => t.duration_ms.getD 0)).sum,
        verification_summary :=
          [("total_candidates", (s.candidate_tracks.length : Int)),
           ("approved", (s.approved_tracks.length : Int)),
           ("rejected", (s.verified_tracks.length : Int) - (s.approved_tracks.length : Int))] }) }

/-- `self.graph.ainvoke` on the compiled linear workflow (supervisor.py lines
46-65 and 87): the five nodes applied in sequence, every edge unconditional. -/
def runGraph (P : ResearcherParams) (search : String → Except Unit String)
    (s : SupervisorState) : SupervisorState :=
  buildResultNode (filterApprovedNode (verifyTracksNode P search
    (generateCandidatesNode (composeConstraintsNode s))))

/-- The initial state of `generate_playlist` (supervisor.py lines 77-85). -/
def initState (request : PlaylistRequest) : SupervisorState :=
  { request := request, constraints := none, candidate_tracks := [],
    verified_tracks := [], approved_tracks := [], result := none, error := none }

/-- Python truthiness of `final_state.get("error")`: a `None` or empty error
string does not raise. -/
def errTruthy : Option String → Bool
  | none => false
  | some e => e ≠ ""

/-- The tail of `generate_playlist` (supervisor.py lines 89-95): the raise of
a wrapping `RuntimeError` is modelled as `Except.error`. -/
def finishPlaylist (final : SupervisorState) : Except String PlaylistResult :=
  if errTruthy final.error then
    Except.error ("Supervisor error: " ++ final.error.getD "")
  else
    match final.result with
    | none => Except.error "Supervisor did not produce a result"
    | some r => Except.ok r

/-- `generate_playlist` (supervisor.py lines 67-95). -/
def generatePlaylist (P : ResearcherParams) (search : String → Except Unit String)
    (request : PlaylistRequest) : Except String PlaylistResult :=
  finishPlaylist (runGraph P search (initState request))

/-! ## Concrete sample inputs for counterexamples and witnesses -/

/-- Arbitrary sample values for the spec-modelled researcher thresholds and
weights; the generic theorems hold for every choice. -/
def sampleParams : ResearcherParams :=
  { INSTRUMENTALNESS_THRESHOLD := 1 / 2,
    SPEECHINESS_THRESHOLD := 33 / 100,
    DISTRACTION_SCORE_SPEECHINESS_WEIGHT := 2 / 5,
    DISTRACTION_SCORE_INSTRUMENTALNESS_WEIGHT := 2 / 5,
    DISTRACTION_SCORE_ENERGY_WEIGHT := 1 / 5,
    DISTRACTION_SCORE_EXPLICIT_PENALTY := 1 / 5,
    DISTRACTION_SCORE_REJECTION_THRESHOLD := 7 / 10 }

/-- A search capability that raises on every query. -/
def searchRaising : String → Except Unit String := fun _ => Except.error ()

/-- A search capability whose result text contains no tempo information. -/
def searchNoInfo : String → Except Unit String := fun _ => Except.ok "no tempo info"

/-- A search capability whose result text reports 136 BPM. -/
def searchFound136 : String → Except Unit String := fun _ => Except.ok "136 BPM"

/-- A baseline candidate with every optional field absent. -/
def baseTrack : TrackMetadata :=
  { spotify_id := "t1", spotify_uri := "spotify:track:t1", name := "Test Track",
    artist := "Test Artist", album := none, duration_ms := none, bpm := none,
    key := none, is_instrumental := none, energy := none, speechiness := none,
    instrumentalness := none, explicit := false, is_live := false,
    is_remaster := false, has_feat := false, source := "spotify_features" }

/-- Focus-style constraints with every hard ban and both tempo bounds set. -/
def hardBanConstraints : ProtocolConstraints :=
  { mode := Mode.FOCUS, tempo_min := some 120, tempo_max := some 140,
    energy_min := none, energy_max := none, no_vocals := true,
    avoid_live := true, avoid_remaster := true, avoid_feat := true,
    genres := [], key_preference := none }

/-- Focus-mode constraints with only the tempo bounds set. -/
def focusTempoConstraints : ProtocolConstraints :=
  { mode := Mode.FOCUS, tempo_min := some 120, tempo_max := some 140,
    energy_min := none, energy_max := none, no_vocals := false,
    avoid_live := false, avoid_remaster := false, avoid_feat := false,
    genres := [], key_preference := none }

/-- Relax-mode constraints with tempo bounds 60-90 and no ban. -/
def relaxTempoConstraints : ProtocolConstraints :=
  { mode := Mode.RELAX, tempo_min := some 60, tempo_max := some 90,
    energy_min := none, energy_max := none, no_vocals := false,
    avoid_live := false, avoid_remaster := false, avoid_feat := false,
    genres := [], key_preference := none }

/-- Relax-mode constraints with tempo bounds 120-140 and no ban, for the
fallback-research scenario. -/
def fallbackConstraints : ProtocolConstraints :=
  { mode := Mode.RELAX, tempo_min := some 120, tempo_max := some 140,
    energy_min := none, energy_max := none, no_vocals := false,
    avoid_live := false, avoid_remaster := false, avoid_feat := false,
    genres := [], key_preference := none }

/-- Relax-mode constraints that avoid live versions and bound the tempo. -/
def liveTempoConstraints : ProtocolConstraints :=
  { mode := Mode.RELAX, tempo_min := some 120, tempo_max := some 140,
    energy_min := none, energy_max := none, no_vocals := false,
    avoid_live := true, avoid_remaster := false, avoid_feat := false,
    genres := [], key_preference := none }

/-- A live vocal candidate whose tempo is below the focus range. -/
def vocalLiveSlowTrack : TrackMetadata :=
  { baseTrack with is_live := true, bpm := some 100, is_instrumental := some false }

/-- A candidate whose tempo is below the focus range. -/
def slowTrack : TrackMetadata :=
  { baseTrack with bpm := some 100, speechiness := some (1 / 10) }

/-- A candidate with tempo 75, inside the relax range. -/
def midTrack : TrackMetadata := { baseTrack with bpm := some 75 }

/-- A live candidate whose tempo is far above every range. -/
def liveFastTrack : TrackMetadata :=
  { baseTrack with is_live := true, bpm := some 300 }

/-! ## Helper lemmas about the verifier stages -/

lemma distractionStage_track (P : ResearcherParams) (t : TrackMetadata)
    (c : ProtocolConstraints) (rs : List String) (ds : Option ℚ) :
    (distractionStage P t c rs ds).track = t := by
  unfold distractionStage
  split <;> try split
  all_goals rfl

lemma energyMaxStage_track (P : ResearcherParams) (t : TrackMetadata)
    (c : ProtocolConstraints) (rs : List String) (ds : Option ℚ) :
    (energyMaxStage P t c rs ds).track = t := by
  unfold energyMaxStage
  split <;> try split
  all_goals first | rfl | apply distractionStage_track

lemma energyMinStage_track (P : ResearcherParams) (t : TrackMetadata)
    (c : ProtocolConstraints) (rs : List String) (ds : Option ℚ) :
    (energyMinStage P t c rs ds).track = t := by
  unfold energyMinStage
  split <;> try split
  all_goals first | rfl | apply energyMaxStage_track

lemma tempoMaxStage_track (P : ResearcherParams) (t : TrackMetadata)
    (c : ProtocolConstraints) (bpm : ℚ) (rs : List String) (ds : Option ℚ) :
    (tempoMaxStage P t c bpm rs ds).track = t := by
  unfold tempoMaxStage
  split <;> try split
  all_goals first | rfl | apply energyMinStage_track

lemma tempoRangeStage_track (P : ResearcherParams) (t : TrackMetadata)
    (c : ProtocolConstraints) (bpm : ℚ) (rs : List String) (ds : Option ℚ) :
    (tempoRangeStage P t c bpm rs ds).track = t := by
  unfold tempoRangeStage
  split <;> try split
  all_goals first | rfl | apply tempoMaxStage_track

lemma distractionStage_reasons (P : ResearcherParams) (t : TrackMetadata)
    (c : ProtocolConstraints) (rs : List String) (ds : Option ℚ) :
    ((distractionStage P t c rs ds).approved = false →
      (distractionStage P t c rs ds).reasons.length = 1)
    ∧ ((distractionStage P t c rs ds).approved = true →
      (distractionStage P t c rs ds).reasons = rs ++ [successMsg]) := by
  unfold distractionStage
  split <;> try split
  all_goals simp

lemma energyMaxStage_reasons (P : ResearcherParams) (t : TrackMetadata)
    (c : ProtocolConstraints) (rs : List String) (ds : Option ℚ) :
    ((energyMaxStage P t c rs ds).approved = false →
      (energyMaxStage P t c rs ds).reasons.length = 1)
    ∧ ((energyMaxStage P t c rs ds).approved = true →
      (energyMaxStage P t c rs ds).reasons = rs ++ [successMsg]) := by
  unfold energyMaxStage
  split <;> try split
  all_goals first | simp | apply distractionStage_reasons

lemma energyMinStage_reasons (P : ResearcherParams) (t : TrackMetadata)
    (c : ProtocolConstraints) (rs : List String) (ds : Option ℚ) :
    ((energyMinStage P t c rs ds).approved = false →
      (energyMinStage P t c rs ds).reasons.length = 1)
    ∧ ((energyMinStage P t c rs ds).approved = true →
      (energyMinStage P t c rs ds).reasons = rs ++ [successMsg]) := by
  unfold energyMinStage
  split <;> try split
  all_goals first | simp | apply energyMaxStage_reasons

lemma tempoMaxStage_reasons (P : ResearcherParams) (t : TrackMetadata)
    (c : ProtocolConstraints) (bpm : ℚ) (rs : List String) (ds : Option ℚ) :
    ((tempoMaxStage P t c bpm rs ds).approved = false →
      (tempoMaxStage P t c bpm rs ds).reasons.length = 1)
    ∧ ((tempoMaxStage P t c bpm rs ds).approved = true →
      (tempoMaxStage P t c bpm rs ds).reasons = rs ++ [bpmWithinMsg bpm, successMsg]) := by
  unfold tempoMaxStage
  split <;> try split
  all_goals
    first
      | simp
      | simpa using energyMinStage_reasons P t c (rs ++ [bpmWithinMsg bpm]) ds

lemma tempoRangeStage_reasons (P : ResearcherParams) (t : TrackMetadata)
    (c : ProtocolConstraints) (bpm : ℚ) (rs : List String) (ds : Option ℚ) :
    ((tempoRangeStage P t c bpm rs ds).approved = false →
      (tempoRangeStage P t c bpm rs ds).reasons.length = 1)
    ∧ ((tempoRangeStage P t c bpm rs ds).approved = true →
      (tempoRangeStage P t c bpm rs ds).reasons = rs ++ [bpmWithinMsg bpm, successMsg]) := by
  unfold tempoRangeStage
  split <;> try split
  all_goals first | simp | apply tempoMaxStage_reasons

lemma tempoRangeStage_reject (P : ResearcherParams) (t : TrackMetadata)
    (c : ProtocolConstraints) (bpm : ℚ) (rs : List String) (ds : Option ℚ)
    (m : ℚ) (hm : c.tempo_min = some m) (hlt : bpm < m) :
    tempoRangeStage P t c bpm rs ds
      = { track := t, approved := false, confidence := 1,
          reasons := [bpmBelowMsg bpm m], distraction_score := none } := by
  unfold tempoRangeStage
  rw [hm]
  exact if_pos hlt

lemma tempoRangeStage_pass (P : ResearcherParams) (t : TrackMetadata)
    (c : ProtocolConstraints) (bpm : ℚ) (rs : List String) (ds : Option ℚ)
    (m : ℚ) (hm : c.tempo_min = some m) (h : ¬ bpm < m) :
    tempoRangeStage P t c bpm rs ds = tempoMaxStage P t c bpm rs ds := by
  unfold tempoRangeStage
  rw [hm]
  exact if_neg h

lemma tempoRangeStage_nomin (P : ResearcherParams) (t : TrackMetadata)
    (c : ProtocolConstraints) (bpm : ℚ) (rs : List String) (ds : Option ℚ)
    (hm : c.tempo_min = none) :
    tempoRangeStage P t c bpm rs ds = tempoMaxStage P t c bpm rs ds := by
  unfold tempoRangeStage
  rw [hm]

lemma tempoMaxStage_reject (P : ResearcherParams) (t : TrackMetadata)
    (c : ProtocolConstraints) (bpm : ℚ) (rs : List String) (ds : Option ℚ)
    (M : ℚ) (hM : c.tempo_max = some M) (hgt : bpm > M) :
    tempoMaxStage P t c bpm rs ds
      = { track := t, approved := false, confidence := 1,
          reasons := [bpmAboveMsg bpm M], distraction_score := none } := by
  unfold tempoMaxStage
  rw [hM]
  exact if_pos hgt

lemma tempoMaxStage_pass (P : ResearcherParams) (t : TrackMetadata)
    (c : ProtocolConstraints) (bpm : ℚ) (rs : List String) (ds : Option ℚ)
    (M : ℚ) (hM : c.tempo_max = some M) (h : ¬ bpm > M) :
    tempoMaxStage P t c bpm rs ds
      = energyMinStage P t c (rs ++ [bpmWithinMsg bpm]) ds := by
  unfold tempoMaxStage
  rw [hM]
  exact if_neg h

lemma tempoMaxStage_nomax (P : ResearcherParams) (t : TrackMetadata)
    (c : ProtocolConstraints) (bpm : ℚ) (rs : List String) (ds : Option ℚ)
    (hM : c.tempo_max = none) :
    tempoMaxStage P t c bpm rs ds
      = energyMinStage P t c (rs ++ [bpmWithinMsg bpm]) ds := by
  unfold tempoMaxStage
  rw [hM]

/-! ## Claims -/

/-- C1, counterexample: a candidate that is live with an out-of-range tempo
under constraints that also ban vocals is rejected with the vocal reason, not
the live reason, because the vocal check runs first; so the claim's "for
every candidate with is_live=true under constraints with avoid_live=true
whose tempo also violates the tempo bounds, verify returns a rejection whose
reason is the live-version reason" is false as stated. -/
theorem c1_vocal_preempts_live_counterexample :
    hardBanConstraints.avoid_live = true
    ∧ vocalLiveSlowTrack.is_live = true
    ∧ hardBanConstraints.tempo_min = some 120
    ∧ vocalLiveSlowTrack.bpm = some 100
    ∧ (100 : ℚ) < 120
    ∧ (verifyTrack sampleParams searchRaising vocalLiveSlowTrack hardBanConstraints).reasons
        = [vocalMsg]
    ∧ [vocalMsg] ≠ [liveMsg] := by
  refine ⟨rfl, rfl, rfl, rfl, by norm_num, by decide, by decide⟩

/-- C1, amended: verification is a short-circuiting chain in the order vocal,
live, remaster, featured-artist (then tempo, energy, distraction); the first
failing check alone determines the rejection reason, so a live candidate
whose tempo violates the bounds is rejected with the live reason — provided
the earlier vocal check passes (no vocal ban, or the candidate counts as
instrumental). -/
theorem c1_hard_ban_chain (P : ResearcherParams)
    (search : String → Except Unit String) (t : TrackMetadata)
    (c : ProtocolConstraints) :
    (c.no_vocals = true → isInstrumental P t = false →
      (verifyTrack P search t c).approved = false
      ∧ (verifyTrack P search t c).reasons = [vocalMsg])
    ∧ ((c.no_vocals = false ∨ isInstrumental P t = true) →
      c.avoid_live = true → t.is_live = true →
      (verifyTrack P search t c).approved = false
      ∧ (verifyTrack P search t c).reasons = [liveMsg])
    ∧ ((c.no_vocals = false ∨ isInstrumental P t = true) →
      (c.avoid_live = false ∨ t.is_live = false) →
      c.avoid_remaster = true → t.is_remaster = true →
      (verifyTrack P search t c).approved = false
      ∧ (verifyTrack P search t c).reasons = [remasterMsg])
    ∧ ((c.no_vocals = false ∨ isInstrumental P t = true) →
      (c.avoid_live = false ∨ t.is_live = false) →
      (c.avoid_remaster = false ∨ t.is_remaster = false) →
      c.avoid_feat = true → t.has_feat = true →
      (verifyTrack P search t c).approved = false
      ∧ (verifyTrack P search t c).reasons = [featMsg]) := by
  refine ⟨?_, ?_, ?_, ?_⟩
  · intro hv hi
    simp [verifyTrack, hv, hi]
  · intro hv hl hil
    rcases hv with hv | hv <;> simp [verifyTrack, hv, hl, hil]
  · intro hv hl hrm hirm
    rcases hv with hv | hv <;> rcases hl with hl | hl <;>
      simp [verifyTrack, hv, hl, hrm, hirm]
  · intro hv hl hrm hf hif
    rcases hv with hv | hv <;> rcases hl with hl | hl <;> rcases hrm with hrm | hrm <;>
      simp [verifyTrack, hv, hl, hrm, hf, hif]

/-- C1, witness: a live relax-mode candidate with tempo 300 (far above the
140 bound) is rejected with the live reason. -/
theorem c1_hard_ban_chain_witness :
    (verifyTrack sampleParams searchRaising liveFastTrack liveTempoConstraints).approved = false
    ∧ (verifyTrack sampleParams searchRaising liveFastTrack liveTempoConstraints).reasons
        = [liveMsg] :=
  (c1_hard_ban_chain sampleParams searchRaising liveFastTrack liveTempoConstraints).2.1
    (Or.inl rfl) rfl rfl

/-- C2: at the failing input — focus-mode constraints with tempo bounds and a
candidate whose tempo 100 lies below the minimum 120 — the rejection raised
by the tempo check carries `distraction_score = none` although the mode is
focus, contradicting the claim that every focus-mode result carries a
non-None distraction score. The source computes the score up front "even for
rejected tracks" but omits it from the tempo- and energy-check result
constructors. -/
theorem c2_focus_tempo_rejection_has_no_score :
    focusTempoConstraints.mode = Mode.FOCUS
    ∧ (verifyTrack sampleParams searchRaising slowTrack focusTempoConstraints).approved = false
    ∧ (verifyTrack sampleParams searchRaising slowTrack focusTempoConstraints).reasons
        = [bpmBelowMsg 100 120]
    ∧ (verifyTrack sampleParams searchRaising slowTrack focusTempoConstraints).distraction_score
        = none := by
  refine ⟨rfl, by decide, by decide, by decide⟩

/-- C7, counterexample: `compose_constraints` puts the genre hint into the
list verbatim — the hint " Jazz " (whose trimmed form is "Jazz") is not
trimmed, and the whitespace-only hint " " still replaces the defaults
instead of being dropped. -/
theorem c7_genre_hint_counterexample :
    (compose_constraints Mode.FOCUS (some " Jazz ")).genres = [" Jazz "]
    ∧ (compose_constraints Mode.FOCUS (some " Jazz ")).genres ≠ ["Jazz"]
    ∧ (compose_constraints Mode.FOCUS (some " ")).genres = [" "]
    ∧ (compose_constraints Mode.FOCUS (some " ")).genres
        ≠ ["Techno", "Baroque", "Post-Rock"] := by
  refine ⟨rfl, by decide, rfl, by decide⟩

/-- C7, amended: a supplied genre hint replaces (never appends to) the mode's
default genre list, but it is taken verbatim: no trimming is applied and
empty or whitespace-only hints are not dropped — they replace the defaults
too; the defaults are used exactly when no hint is supplied. -/
theorem c7_genre_hint_replaces_verbatim (mode : Mode) (g : String) :
    (compose_constraints mode (some g)).genres = [g]
    ∧ (compose_constraints Mode.FOCUS none).genres = ["Techno", "Baroque", "Post-Rock"]
    ∧ (compose_constraints Mode.RELAX none).genres = ["Acoustic", "Ambient", "Jazz"]
    ∧ (compose_constraints Mode.SLEEP none).genres = ["Ambient", "Drone", "Nature Sounds"]
    ∧ (compose_constraints Mode.MEDITATION none).genres
        = ["Ambient", "Drone", "Nature Sounds"] := by
  refine ⟨?_, rfl, rfl, rfl, rfl⟩
  cases mode <;> rfl

/-- C8: the BPM extractor is total, tries the four patterns in priority
order, returns only values inside the sanity range (so the spec's three test
vectors hold: 120 from "The track is 120 BPM", none for the out-of-range
"BPM: 300", none for "no tempo info"), and a first-pattern match inside the
range is returned outright. -/
theorem c8_extract_bpm_contract :
    extractBpmFromText "The track is 120 BPM" = some 120
    ∧ extractBpmFromText "BPM: 300" = none
    ∧ extractBpmFromText "no tempo info" = none
    ∧ (∀ text b, extractBpmFromText text = some b →
        MIN_VALID_BPM ≤ b ∧ b ≤ MAX_VALID_BPM)
    ∧ (∀ text n, scanP1 false text.data = some n →
        MIN_VALID_BPM ≤ (n : ℚ) → (n : ℚ) ≤ MAX_VALID_BPM →
        extractBpmFromText text = some ((n : ℚ))) := by
  have step : ∀ (n : Nat) (ms : List (Option Nat)),
      firstValidBpm (some n :: ms)
        = if MIN_VALID_BPM ≤ (n : ℚ) ∧ (n : ℚ) ≤ MAX_VALID_BPM then some ((n : ℚ))
          else firstValidBpm ms := fun _ _ => rfl
  have stepn : ∀ (ms : List (Option Nat)), firstValidBpm (none :: ms) = firstValidBpm ms :=
    fun _ => rfl
  have aux : ∀ (ms : List (Option Nat)) (q : ℚ), firstValidBpm ms = some q →
      MIN_VALID_BPM ≤ q ∧ q ≤ MAX_VALID_BPM := by
    intro ms
    induction ms with
    | nil => intro q h; simp [firstValidBpm] at h
    | cons m ms ih =>
      intro q h
      cases m with
      | none => rw [stepn] at h; exact ih q h
      | some n =>
        rw [step] at h
        by_cases hr : MIN_VALID_BPM ≤ (n : ℚ) ∧ (n : ℚ) ≤ MAX_VALID_BPM
        · rw [if_pos hr] at h
          injection h with h2
          subst h2
          exact hr
        · rw [if_neg hr] at h
          exact ih q h
  refine ⟨by decide, by decide, by decide, ?_, ?_⟩
  · intro text b h
    exact aux _ b h
  · intro text n h hlo hhi
    unfold extractBpmFromText
    rw [h, step, if_pos ⟨hlo, hhi⟩]

/-- C9, counterexample: an accepted relax-mode candidate whose tempo was
checked carries two reasons (the BPM-within-range note and the success
message), not "a single success message"; and a rejected live candidate with
tempo 300 far above the 140 bound carries only the live reason, not "all
failing checks" (the BPM-above reason is absent). -/
theorem c9_reasons_counterexample :
    (verifyTrack sampleParams searchRaising midTrack relaxTempoConstraints).approved = true
    ∧ (verifyTrack sampleParams searchRaising midTrack relaxTempoConstraints).reasons
        = [bpmWithinMsg 75, successMsg]
    ∧ (verifyTrack sampleParams searchRaising midTrack relaxTempoConstraints).reasons.length ≠ 1
    ∧ (verifyTrack sampleParams searchRaising liveFastTrack liveTempoConstraints).approved = false
    ∧ liveFastTrack.bpm = some 300
    ∧ liveTempoConstraints.tempo_max = some 140
    ∧ (300 : ℚ) > 140
    ∧ (verifyTrack sampleParams searchRaising liveFastTrack liveTempoConstraints).reasons
        = [liveMsg]
    ∧ bpmAboveMsg 300 140
        ∉ (verifyTrack sampleParams searchRaising liveFastTrack liveTempoConstraints).reasons := by
  refine ⟨by decide, by decide, by decide, by decide, rfl, rfl, by norm_num, by decide, by decide⟩

/-- C9, amended: the reasons list of every rejection contains exactly one
entry, the first failing check (not all failing checks); the reasons list of
an acceptance is the success message alone when no tempo bound was
configured, and the BPM-within-range note followed by the success message
when a tempo bound was checked. -/
theorem c9_reasons_shape (P : ResearcherParams)
    (search : String → Except Unit String) (t : TrackMetadata)
    (c : ProtocolConstraints) :
    ((verifyTrack P search t c).approved = false →
      (verifyTrack P search t c).reasons.length = 1)
    ∧ ((verifyTrack P search t c).approved = true →
      (c.tempo_min = none ∧ c.tempo_max = none →
        (verifyTrack P search t c).reasons = [successMsg])
      ∧ (∀ b, (verifyTrack P search t c).track.bpm = some b →
          (c.tempo_min.isSome = true ∨ c.tempo_max.isSome = true) →
          (verifyTrack P search t c).reasons = [bpmWithinMsg b, successMsg])) := by
  simp only [verifyTrack]
  split
  · simp
  · split
    · simp
    · split
      · simp
      · split
        · simp
        · split
          · -- a tempo bound is set
            rename_i hbound
            split
            · -- track.bpm = some bpm
              rename_i bpm hbpm
              constructor
              · intro hap
                exact (tempoRangeStage_reasons P t c bpm [] _).1 hap
              · intro hap
                constructor
                · rintro ⟨h1, h2⟩
                  rw [h1, h2] at hbound
                  simp at hbound
                · intro b hb _
                  rw [tempoRangeStage_track] at hb
                  rw [hbpm] at hb
                  injection hb with hb
                  subst hb
                  simpa using (tempoRangeStage_reasons P t c bpm [] _).2 hap
            · -- track.bpm = none: fallback research
              split
              · -- research failed
                simp
              · -- research found bpm
                rename_i bpm hres
                constructor
                · intro hap
                  exact (tempoRangeStage_reasons P _ c bpm [] _).1 hap
                · intro hap
                  constructor
                  · rintro ⟨h1, h2⟩
                    rw [h1, h2] at hbound
                    simp at hbound
                  · intro b hb _
                    rw [tempoRangeStage_track] at hb
                    simp only at hb
                    injection hb with hb
                    subst hb
                    simpa using (tempoRangeStage_reasons P _ c bpm [] _).2 hap
          · -- no tempo bound
            rename_i hbound
            constructor
            · intro hap
              exact (energyMinStage_reasons P t c [] _).1 hap
            · intro hap
              constructor
              · intro _
                simpa using (energyMinStage_reasons P t c [] _).2 hap
              · intro b hb habs
                rcases habs with h | h <;>
                  simp [h] at hbound

/-- C10: `verify_track` mutates at most the candidate's `bpm` and `source`
fields, and does so only on the successful fallback-research path (tempo
absent, a tempo bound set, research returned a value); every other field of
the candidate is unchanged in the returned result on every path. -/
theorem c10_track_mutation_frame (P : ResearcherParams)
    (search : String → Except Unit String) (t : TrackMetadata)
    (c : ProtocolConstraints) :
    ((verifyTrack P search t c).track = t
      ∨ (t.bpm = none
          ∧ (c.tempo_min.isSome = true ∨ c.tempo_max.isSome = true)
          ∧ ∃ b, researchBpm search t = some b
              ∧ (verifyTrack P search t c).track
                = { t with bpm := some b, source := "external_fallback" }))
    ∧ (verifyTrack P search t c).track.spotify_id = t.spotify_id
    ∧ (verifyTrack P search t c).track.spotify_uri = t.spotify_uri
    ∧ (verifyTrack P search t c).track.name = t.name
    ∧ (verifyTrack P search t c).track.artist = t.artist
    ∧ (verifyTrack P search t c).track.album = t.album
    ∧ (verifyTrack P search t c).track.duration_ms = t.duration_ms
    ∧ (verifyTrack P search t c).track.key = t.key
    ∧ (verifyTrack P search t c).track.is_instrumental = t.is_instrumental
    ∧ (verifyTrack P search t c).track.energy = t.energy
    ∧ (verifyTrack P search t c).track.speechiness = t.speechiness
    ∧ (verifyTrack P search t c).track.instrumentalness = t.instrumentalness
    ∧ (verifyTrack P search t c).track.explicit = t.explicit
    ∧ (verifyTrack P search t c).track.is_live = t.is_live
    ∧ (verifyTrack P search t c).track.is_remaster = t.is_remaster
    ∧ (verifyTrack P search t c).track.has_feat = t.has_feat := by
  have hcases : (verifyTrack P search t c).track = t
      ∨ (t.bpm = none
          ∧ (c.tempo_min.isSome = true ∨ c.tempo_max.isSome = true)
          ∧ ∃ b, researchBpm search t = some b
              ∧ (verifyTrack P search t c).track
                = { t with bpm := some b, source := "external_fallback" }) := by
    simp only [verifyTrack]
    split
    · exact Or.inl rfl
    · split
      · exact Or.inl rfl
      · split
        · exact Or.inl rfl
        · split
          · exact Or.inl rfl
          · split
            · rename_i hbound
              split
              · exact Or.inl (tempoRangeStage_track ..)
              · split
                · exact Or.inl rfl
                · rename_i hbpm _ bpm hres
                  refine Or.inr ⟨hbpm, by simpa using hbound, bpm, hres, ?_⟩
                  exact tempoRangeStage_track ..
            · exact Or.inl (energyMinStage_track ..)
  refine ⟨hcases, ?_⟩
  rcases hcases with h | ⟨_, _, b, _, h⟩ <;> rw [h] <;> exact ⟨rfl, rfl, rfl, rfl, rfl,
    rfl, rfl, rfl, rfl, rfl, rfl, rfl, rfl, rfl, rfl⟩

/-- C4: for a candidate that passes the hard bans, has no tempo, and is
checked under a tempo bound, a raising search capability is caught inside
`_research_bpm` and the verifier returns the same low-confidence rejection
(approved=false, confidence 0.0, the insufficient-BPM reason) as for any
search outcome in which no tempo is found; no exception reaches the caller. -/
theorem c4_search_failure_degrades (P : ResearcherParams)
    (searchRaise searchOther : String → Except Unit String)
    (t : TrackMetadata) (c : ProtocolConstraints)
    (hb : t.bpm = none)
    (hbound : c.tempo_min.isSome = true ∨ c.tempo_max.isSome = true)
    (hv : c.no_vocals = false ∨ isInstrumental P t = true)
    (hl : c.avoid_live = false ∨ t.is_live = false)
    (hr : c.avoid_remaster = false ∨ t.is_remaster = false)
    (hf : c.avoid_feat = false ∨ t.has_feat = false)
    (hraise : ∀ q, searchRaise q = Except.error ())
    (hnone : researchBpm searchOther t = none) :
    (verifyTrack P searchRaise t c).approved = false
    ∧ (verifyTrack P searchRaise t c).confidence = 0
    ∧ (verifyTrack P searchRaise t c).reasons = [insufficientBpmMsg]
    ∧ verifyTrack P searchRaise t c = verifyTrack P searchOther t c := by
  have h1 : researchBpm searchRaise t = none := by
    unfold researchBpm
    rw [hraise]
  have hv2 : (c.no_vocals && !(isInstrumental P t)) = false := by
    rcases hv with h | h <;> simp [h]
  have hl2 : (c.avoid_live && t.is_live) = false := by
    rcases hl with h | h <;> simp [h]
  have hr2 : (c.avoid_remaster && t.is_remaster) = false := by
    rcases hr with h | h <;> simp [h]
  have hf2 : (c.avoid_feat && t.has_feat) = false := by
    rcases hf with h | h <;> simp [h]
  have hb2 : (c.tempo_min.isSome || c.tempo_max.isSome) = true := by
    rcases hbound with h | h <;> simp [h]
  simp [verifyTrack, hv2, hl2, hr2, hf2, hb2, hb, h1, hnone]

/-- C4, witness: the raising search and the no-information search yield the
same rejection for the bare candidate under relax tempo bounds. -/
theorem c4_search_failure_degrades_witness :
    (verifyTrack sampleParams searchRaising baseTrack relaxTempoConstraints).approved = false
    ∧ (verifyTrack sampleParams searchRaising baseTrack relaxTempoConstraints).confidence = 0
    ∧ (verifyTrack sampleParams searchRaising baseTrack relaxTempoConstraints).reasons
        = [insufficientBpmMsg]
    ∧ verifyTrack sampleParams searchRaising baseTrack relaxTempoConstraints
        = verifyTrack sampleParams searchNoInfo baseTrack relaxTempoConstraints :=
  c4_search_failure_degrades sampleParams searchRaising searchNoInfo baseTrack
    relaxTempoConstraints rfl (Or.inl rfl) (Or.inl rfl) (Or.inl rfl) (Or.inl rfl)
    (Or.inl rfl) (fun _ => rfl) (by decide)

/-- C5, counterexample: on the fallback path the provenance written onto the
candidate is the string "external_fallback", not "external-fallback" as the
claim states. -/
theorem c5_provenance_tag_counterexample :
    baseTrack.bpm = none
    ∧ fallbackConstraints.tempo_min = some 120
    ∧ researchBpm searchFound136 baseTrack = some 136
    ∧ (verifyTrack sampleParams searchFound136 baseTrack fallbackConstraints).track.bpm
        = some 136
    ∧ (verifyTrack sampleParams searchFound136 baseTrack fallbackConstraints).track.source
        = "external_fallback"
    ∧ (verifyTrack sampleParams searchFound136 baseTrack fallbackConstraints).track.source
        ≠ "external-fallback" := by
  refine ⟨rfl, rfl, by decide, by decide, by decide, by decide⟩

/-- C5, amended: when a candidate without a tempo passes the hard bans under
a tempo bound and the fallback search resolves a tempo, that tempo is written
back onto the candidate together with the provenance tag "external_fallback"
(underscore, not the hyphenated spelling), and the verifier then rejects with
confidence 1.0 and the explicit below-minimum (respectively above-maximum)
reason exactly when the resolved tempo violates tempo_min (respectively
tempo_max); when neither bound is violated the tempo check passes and
verification proceeds to the energy stage. -/
theorem c5_fallback_writeback (P : ResearcherParams)
    (search : String → Except Unit String) (t : TrackMetadata)
    (c : ProtocolConstraints)
    (hb : t.bpm = none)
    (hbound : c.tempo_min.isSome = true ∨ c.tempo_max.isSome = true)
    (hv : c.no_vocals = false ∨ isInstrumental P t = true)
    (hl : c.avoid_live = false ∨ t.is_live = false)
    (hr : c.avoid_remaster = false ∨ t.is_remaster = false)
    (hf : c.avoid_feat = false ∨ t.has_feat = false)
    (b : ℚ) (hres : researchBpm search t = some b) :
    ((verifyTrack P search t c).track
        = { t with bpm := some b, source := "external_fallback" })
    ∧ (∀ m, c.tempo_min = some m → b < m →
        verifyTrack P search t c
          = { track := { t with bpm := some b, source := "external_fallback" },
              approved := false, confidence := 1,
              reasons := [bpmBelowMsg b m], distraction_score := none })
    ∧ (∀ M, c.tempo_max = some M → b > M → (∀ m, c.tempo_min = some m → ¬ b < m) →
        verifyTrack P search t c
          = { track := { t with bpm := some b, source := "external_fallback" },
              approved := false, confidence := 1,
              reasons := [bpmAboveMsg b M], distraction_score := none })
    ∧ ((∀ m, c.tempo_min = some m → ¬ b < m) → (∀ M, c.tempo_max = some M → ¬ b > M) →
        verifyTrack P search t c
          = energyMinStage P { t with bpm := some b, source := "external_fallback" } c
              [bpmWithinMsg b]
              (if c.mode = Mode.FOCUS then some (calculateDistractionScore P t)
               else none)) := by
  have hv2 : (c.no_vocals && !(isInstrumental P t)) = false := by
    rcases hv with h | h <;> simp [h]
  have hl2 : (c.avoid_live && t.is_live) = false := by
    rcases hl with h | h <;> simp [h]
  have hr2 : (c.avoid_remaster && t.is_remaster) = false := by
    rcases hr with h | h <;> simp [h]
  have hf2 : (c.avoid_feat && t.has_feat) = false := by
    rcases hf with h | h <;> simp [h]
  have hb2 : (c.tempo_min.isSome || c.tempo_max.isSome) = true := by
    rcases hbound with h | h <;> simp [h]
  have hred : verifyTrack P search t c
      = tempoRangeStage P { t with bpm := some b, source := "external_fallback" } c b []
          (if c.mode = Mode.FOCUS then some (calculateDistractionScore P t) else none) := by
    simp [verifyTrack, hv2, hl2, hr2, hf2, hb2, hb, hres]
  refine ⟨?_, ?_, ?_, ?_⟩
  · rw [hred]
    exact tempoRangeStage_track ..
  · intro m hm hlt
    rw [hred, tempoRangeStage_reject P _ c b [] _ m hm hlt]
  · intro M hM hgt hnm
    rw [hred]
    have h1 : tempoRangeStage P
        { t with bpm := some b, source := "external_fallback" } c b []
        (if c.mode = Mode.FOCUS then some (calculateDistractionScore P t) else none)
        = tempoMaxStage P { t with bpm := some b, source := "external_fallback" } c b []
          (if c.mode = Mode.FOCUS then some (calculateDistractionScore P t) else none) := by
      cases hmin : c.tempo_min with
      | some m => exact tempoRangeStage_pass P _ c b [] _ m hmin (hnm m hmin)
      | none => exact tempoRangeStage_nomin P _ c b [] _ hmin
    rw [h1, tempoMaxStage_reject P _ c b [] _ M hM hgt]
  · intro hnm hnM
    rw [hred]
    have h1 : tempoRangeStage P
        { t with bpm := some b, source := "external_fallback" } c b []
        (if c.mode = Mode.FOCUS then some (calculateDistractionScore P t) else none)
        = tempoMaxStage P { t with bpm := some b, source := "external_fallback" } c b []
          (if c.mode = Mode.FOCUS then some (calculateDistractionScore P t) else none) := by
      cases hmin : c.tempo_min with
      | some m => exact tempoRangeStage_pass P _ c b [] _ m hmin (hnm m hmin)
      | none => exact tempoRangeStage_nomin P _ c b [] _ hmin
    have h2 : tempoMaxStage P
        { t with bpm := some b, source := "external_fallback" } c b []
        (if c.mode = Mode.FOCUS then some (calculateDistractionScore P t) else none)
        = energyMinStage P { t with bpm := some b, source := "external_fallback" } c
          ([] ++ [bpmWithinMsg b])
          (if c.mode = Mode.FOCUS then some (calculateDistractionScore P t) else none) := by
      cases hmax : c.tempo_max with
      | some M => exact tempoMaxStage_pass P _ c b [] _ M hmax (hnM M hmax)
      | none => exact tempoMaxStage_nomax P _ c b [] _ hmax
    rw [h1, h2, List.nil_append]

/-- C5, witness: the bare candidate under relax-mode bounds 120-140 with a
search that reports 136 BPM gets 136 and the underscore provenance written
back. -/
theorem c5_fallback_writeback_witness :
    (verifyTrack sampleParams searchFound136 baseTrack fallbackConstraints).track
      = { baseTrack with bpm := some 136, source := "external_fallback" } :=
  (c5_fallback_writeback sampleParams searchFound136 baseTrack fallbackConstraints rfl
    (Or.inl rfl) (Or.inl rfl) (Or.inl rfl) (Or.inl rfl) (Or.inl rfl) 136 (by decide)).1

/-- C6: under a vocal ban, instrumental status is decided in order by the
explicit flag, else the instrumentalness score against its threshold, else
the speechiness score against its threshold; with all three signals absent
the status defaults to "has vocals" and the candidate is rejected with the
contains-vocals reason. -/
theorem c6_vocal_status_priority (P : ResearcherParams) (t : TrackMetadata)
    (c : ProtocolConstraints) (search : String → Except Unit String)
    (hn : c.no_vocals = true) :
    (∀ b, t.is_instrumental = some b → isInstrumental P t = b)
    ∧ (t.is_instrumental = none → ∀ i, t.instrumentalness = some i →
        isInstrumental P t = decide (i > P.INSTRUMENTALNESS_THRESHOLD))
    ∧ (t.is_instrumental = none → t.instrumentalness = none →
        ∀ sp, t.speechiness = some sp →
          isInstrumental P t = decide (sp < P.SPEECHINESS_THRESHOLD))
    ∧ (t.is_instrumental = none → t.instrumentalness = none → t.speechiness = none →
        isInstrumental P t = false
        ∧ (verifyTrack P search t c).approved = false
        ∧ (verifyTrack P search t c).reasons = [vocalMsg]) := by
  refine ⟨?_, ?_, ?_, ?_⟩
  · intro b hb
    simp [isInstrumental, hb]
  · intro h0 i hi
    simp [isInstrumental, h0, hi]
  · intro h0 h1 sp hsp
    simp [isInstrumental, h0, h1, hsp]
  · intro h0 h1 h2
    have hins : isInstrumental P t = false := by simp [isInstrumental, h0, h1, h2]
    exact ⟨hins, by simp [verifyTrack, hn, hins], by simp [verifyTrack, hn, hins]⟩

/-- C6, witness: the bare candidate (no instrumental flag, no scores) under
the focus hard bans is rejected for containing vocals. -/
theorem c6_vocal_status_priority_witness :
    isInstrumental sampleParams baseTrack = false
    ∧ (verifyTrack sampleParams searchRaising baseTrack hardBanConstraints).approved = false
    ∧ (verifyTrack sampleParams searchRaising baseTrack hardBanConstraints).reasons
        = [vocalMsg] :=
  (c6_vocal_status_priority sampleParams baseTrack hardBanConstraints searchRaising
    rfl).2.2.2 rfl rfl rfl

/-- C3: the orchestrator applies all five states in sequence — `runGraph` is
their unconditional composition and the result slot is populated from every
starting state, including states carrying an error (no short-circuiting);
`generate_playlist` raises exactly when the final error slot is non-empty or
no result was produced, and otherwise returns the built PlaylistResult; for
every request the built result is returned. -/
theorem c3_orchestrator_walks_and_wraps (P : ResearcherParams)
    (search : String → Except Unit String) (request : PlaylistRequest) :
    (∃ r, generatePlaylist P search request = Except.ok r
        ∧ (runGraph P search (initState request)).result = some r)
    ∧ (∀ s : SupervisorState, (runGraph P search s).result.isSome = true)
    ∧ (∀ final : SupervisorState,
        (∃ e, finishPlaylist final = Except.error e)
        ↔ (errTruthy final.error = true ∨ final.result = none))
    ∧ (∀ (final : SupervisorState) (r : PlaylistResult),
        errTruthy final.error = false → final.result = some r →
        finishPlaylist final = Except.ok r) := by
  refine ⟨⟨_, rfl, rfl⟩, fun s => rfl, ?_, ?_⟩
  · intro final
    constructor
    · rintro ⟨e, he⟩
      unfold finishPlaylist at he
      by_cases h : errTruthy final.error = true
      · exact Or.inl h
      · rw [if_neg h] at he
        cases hr : final.result with
        | none => exact Or.inr rfl
        | some r => rw [hr] at he; simp at he
    · intro h
      unfold finishPlaylist
      by_cases he : errTruthy final.error = true
      · rw [if_pos he]
        exact ⟨_, rfl⟩
      · rw [if_neg he]
        rcases h with h | h
        · exact absurd h he
        · rw [h]
          exact ⟨_, rfl⟩
  · intro final r hne hr
    unfold finishPlaylist
    rw [if_neg (by simp [hne]), hr]

/-- C3, witness: a concrete focus request runs through all five states and
yields the built empty playlist. -/
theorem c3_orchestrator_walks_and_wraps_witness :
    ∃ r, generatePlaylist sampleParams searchRaising
          { mode := Mode.FOCUS, genre := none, duration_minutes := some 60 }
        = Except.ok r
      ∧ (runGraph sampleParams searchRaising (initState
          { mode := Mode.FOCUS, genre := none, duration_minutes := some 60 })).result
        = some r :=
  (c3_orchestrator_walks_and_wraps sampleParams searchRaising
    { mode := Mode.FOCUS, genre := none, duration_minutes := some 60 }).1

end BrainRadio
